import Mathlib

/-!
Shallow embedding of the three crate snapshots of the semver-trick
repository: semver-trick 0.2.0 (Snapshot A), semver-trick 0.2.1
(Snapshot B, the bridge) and semver-trick 0.3.0 (Snapshot C).

Each `lib.rs` is a flat list of public items: unit `struct` declarations
and `pub use` re-exports of a path from an extern crate.  The identity
of a type is the snapshot and in-crate path of the `struct` declaration
that originates it, obtained by chasing `pub use` re-exports through the
dependency graph.
-/

/-- Identifier of one of the three published snapshots of the crate. -/
inductive CrateId
  | v0_2_0  -- Snapshot A, semver-trick 0.2.0
  | v0_2_1  -- Snapshot B, the bridge, semver-trick 0.2.1
  | v0_3_0  -- Snapshot C, semver-trick 0.3.0
deriving DecidableEq, Repr

/-- Public item of a crate source file: either a `pub struct` declaration
with its number of fields, or a `pub use` re-export naming an extern
crate and a path inside it. -/
inductive Decl
  | structDecl (numFields : Nat)
  | pubUse (dep : String) (path : List String)
deriving DecidableEq, Repr

/-- Source of one crate snapshot: its public items, each keyed by the
path that binds it inside the crate (module path plus name), and the
resolution of extern-crate names to snapshots. -/
structure CrateSrc where
  items : List (List String × Decl)
  deps : List (String × CrateId)
deriving DecidableEq, Repr

/-- Modelled from the spec: the package manifest of the bridge crate
0.2.1 (its Cargo.toml is not under src/) resolves the extern crate
`semver_trick` to the future snapshot 0.3.0.  The spec says the bridge
aliases names "from a future location", and the re-export path
`semver_trick::after::Moved` in src/semver-trick-0.2.1/src/lib.rs
resolves only in 0.3.0, the sole snapshot with an `after` module. -/
def bridgeDeps : List (String × CrateId) :=
  [("semver_trick", CrateId.v0_3_0)]

/-- Crate semver-trick 0.2.0 (Snapshot A), from
src/semver-trick-0.2.0/src/lib.rs: `pub struct Unchanged;`,
`pub struct Removed;`, and `pub mod before` containing
`pub struct Moved;`.  All three structs are unit structs (no fields). -/
def semver_trick_0_2_0 : CrateSrc where
  items := [(["Unchanged"], Decl.structDecl 0),
            (["Removed"], Decl.structDecl 0),
            (["before", "Moved"], Decl.structDecl 0)]
  deps := []

/-- Crate semver-trick 0.2.1 (Snapshot B, the bridge), from
src/semver-trick-0.2.1/src/lib.rs: `pub use semver_trick::Unchanged;`,
a fresh `pub struct Removed;`, and `pub mod before` containing
`pub use semver_trick::after::Moved;`. -/
def semver_trick_0_2_1 : CrateSrc where
  items := [(["Unchanged"], Decl.pubUse "semver_trick" ["Unchanged"]),
            (["Removed"], Decl.structDecl 0),
            (["before", "Moved"], Decl.pubUse "semver_trick" ["after", "Moved"])]
  deps := bridgeDeps

/-- Crate semver-trick 0.3.0 (Snapshot C), from
src/semver-trick-0.3.0/src/lib.rs: `pub struct Unchanged;`,
`pub struct Added;`, and `pub mod after` containing
`pub struct Moved;`.  All three structs are unit structs (no fields). -/
def semver_trick_0_3_0 : CrateSrc where
  items := [(["Unchanged"], Decl.structDecl 0),
            (["Added"], Decl.structDecl 0),
            (["after", "Moved"], Decl.structDecl 0)]
  deps := []

/-- The source of each snapshot. -/
def crateOf : CrateId → CrateSrc
  | CrateId.v0_2_0 => semver_trick_0_2_0
  | CrateId.v0_2_1 => semver_trick_0_2_1
  | CrateId.v0_3_0 => semver_trick_0_3_0

/-- The list of all three snapshots. -/
def allCrates : List CrateId :=
  [CrateId.v0_2_0, CrateId.v0_2_1, CrateId.v0_3_0]

/-- Look up the item a crate binds at a given path, if any. -/
def lookupItem (c : CrateId) (p : List String) : Option Decl :=
  ((crateOf c).items.find? (fun it => it.1 == p)).map (fun it => it.2)

/-- Resolve an extern-crate name of a crate to a snapshot, if any. -/
def depCrate (c : CrateId) (dep : String) : Option CrateId :=
  ((crateOf c).deps.find? (fun d => d.1 == dep)).map (fun d => d.2)

/-- Identity of a type: the snapshot and in-crate path of the `struct`
declaration that originates it. -/
abbrev TypeId := CrateId × List String

/-- Resolve a public path of a crate to the originating `struct`
declaration, chasing `pub use` re-exports across crates.  The fuel
bounds the length of the re-export chain. -/
def resolve : Nat → CrateId → List String → Option TypeId
  | 0, _, _ => none
  | Nat.succ fuel, c, p =>
    match lookupItem c p with
    | some (Decl.structDecl _) => some (c, p)
    | some (Decl.pubUse dep path) =>
      match depCrate c dep with
      | some c2 => resolve fuel c2 path
      | none => none
    | none => none

/-- Type identity of a public path of a snapshot.  Fuel 8 is ample:
the dependency graph has a single edge, so every re-export chain here
has length at most one. -/
def typeId (c : CrateId) (p : List String) : Option TypeId :=
  resolve 8 c p

/-- Paths of the public items a snapshot binds at its surface. -/
def declaredPaths (c : CrateId) : List (List String) :=
  (crateOf c).items.map (fun it => it.1)

/-- Whether an item is a fresh `struct` declaration (not a re-export). -/
def isStructDecl : Decl → Bool
  | Decl.structDecl _ => true
  | Decl.pubUse _ _ => false

/-- C1: the path `before::Moved` resolves in Snapshot A, still resolves
in Snapshot B (crate 0.2.1), and the type it names in B has the same
identity as Snapshot C's `after::Moved` (crate 0.3.0), so code written
against A's `before::Moved` keeps naming a well-defined type across the
upgrade, and that type is C's `after::Moved`. -/
theorem c1_before_moved_survives_upgrade :
    (typeId CrateId.v0_2_0 ["before", "Moved"]).isSome = true ∧
    (typeId CrateId.v0_2_1 ["before", "Moved"]).isSome = true ∧
    typeId CrateId.v0_2_1 ["before", "Moved"]
      = typeId CrateId.v0_3_0 ["after", "Moved"] := by
  decide

/-- C2 counterexample: in Snapshot B the name `Unchanged` is bound by a
re-export whose origin declaration lies in Snapshot C (crate 0.3.0),
which is not Snapshot A (crate 0.2.0); so the claim that each of the
bridge's re-exports originates in Snapshot A is false. -/
theorem c2_counterexample_unchanged_originates_in_0_3_0 :
    typeId CrateId.v0_2_1 ["Unchanged"]
      = some (CrateId.v0_3_0, ["Unchanged"]) ∧
    CrateId.v0_3_0 ≠ CrateId.v0_2_0 := by
  decide

/-- C2 (amended): Snapshot B (crate 0.2.1) re-exports `Unchanged` and
`before::Moved`: both are `pub use` items, and for each of these two
names the origin declaration lies in Snapshot C (crate 0.3.0), the
future snapshot the bridge depends on. -/
theorem c2_bridge_reexports_originate_in_0_3_0 :
    lookupItem CrateId.v0_2_1 ["Unchanged"]
      = some (Decl.pubUse "semver_trick" ["Unchanged"]) ∧
    lookupItem CrateId.v0_2_1 ["before", "Moved"]
      = some (Decl.pubUse "semver_trick" ["after", "Moved"]) ∧
    (typeId CrateId.v0_2_1 ["Unchanged"]).map Prod.fst
      = some CrateId.v0_3_0 ∧
    (typeId CrateId.v0_2_1 ["before", "Moved"]).map Prod.fst
      = some CrateId.v0_3_0 := by
  decide

/-- C3: each symbol the bridge re-exports has the very type identity of
the corresponding symbol in Snapshot C: B's `Unchanged` is C's
`Unchanged` and B's `before::Moved` is C's `after::Moved`, and both
identities exist, so dependents on the old and the new paths exchange
values of these types. -/
theorem c3_bridge_identities_equal_snapshot_c :
    typeId CrateId.v0_2_1 ["Unchanged"]
      = typeId CrateId.v0_3_0 ["Unchanged"] ∧
    typeId CrateId.v0_2_1 ["before", "Moved"]
      = typeId CrateId.v0_3_0 ["after", "Moved"] ∧
    (typeId CrateId.v0_3_0 ["Unchanged"]).isSome = true ∧
    (typeId CrateId.v0_3_0 ["after", "Moved"]).isSome = true := by
  decide

/-- C4: Snapshot B's top-level `Removed` is a fresh zero-field struct
declaration of its own, not a re-export, and its type identity is rooted
in Snapshot B itself. -/
theorem c4_removed_is_fresh_in_bridge :
    lookupItem CrateId.v0_2_1 ["Removed"] = some (Decl.structDecl 0) ∧
    typeId CrateId.v0_2_1 ["Removed"]
      = some (CrateId.v0_2_1, ["Removed"]) := by
  decide

/-- C5: Snapshot A (crate 0.2.0) binds exactly the paths `Unchanged`,
`Removed` and `before::Moved`, no others, and every one of them is a
struct declaration, so its public types are exactly those three. -/
theorem c5_snapshot_a_surface_exact :
    declaredPaths CrateId.v0_2_0
      = [["Unchanged"], ["Removed"], ["before", "Moved"]] ∧
    ((crateOf CrateId.v0_2_0).items.all
      (fun it => isStructDecl it.2)) = true := by
  decide

/-- C6: Snapshot C (crate 0.3.0) binds exactly the paths `Unchanged`,
`Added` and `after::Moved`, no others, each a struct declaration; in
particular it binds no `Removed` and no path inside a `before`
module. -/
theorem c6_snapshot_c_surface_exact :
    declaredPaths CrateId.v0_3_0
      = [["Unchanged"], ["Added"], ["after", "Moved"]] ∧
    ((crateOf CrateId.v0_3_0).items.all
      (fun it => isStructDecl it.2)) = true ∧
    lookupItem CrateId.v0_3_0 ["Removed"] = none ∧
    ((declaredPaths CrateId.v0_3_0).all
      (fun p => p.headD "" != "before")) = true := by
  decide

/-- C7: every struct declared across the three snapshots carries zero
fields (a unit marker struct), and every public path of every snapshot
resolves to such a zero-field declaration, so in the embedding each of
these types has a single unit value and no operations. -/
theorem c7_all_declared_structs_are_empty :
    (allCrates.all (fun c =>
      (crateOf c).items.all (fun it =>
        (match it.2 with
         | Decl.structDecl n => n == 0
         | Decl.pubUse _ _ => true)
        &&
        (match typeId c it.1 with
         | some tid => lookupItem tid.1 tid.2 == some (Decl.structDecl 0)
         | none => false)))) = true := by
  decide

/-- C8: the bridge's public surface mirrors Snapshot A's name for name:
Snapshot B binds exactly the same list of public paths as Snapshot A,
namely `Unchanged`, `Removed` and `before::Moved`, so upgrading from A
to B removes no name and adds none. -/
theorem c8_bridge_surface_equals_snapshot_a :
    declaredPaths CrateId.v0_2_1 = declaredPaths CrateId.v0_2_0 ∧
    declaredPaths CrateId.v0_2_0
      = [["Unchanged"], ["Removed"], ["before", "Moved"]] := by
  decide

/-- C9: `Added` is unreachable through Snapshot B's public interface:
B binds no path mentioning the name `Added`, and no public path of B
resolves to Snapshot C's `Added` declaration. -/
theorem c9_added_unreachable_from_bridge :
    lookupItem CrateId.v0_2_1 ["Added"] = none ∧
    ((crateOf CrateId.v0_2_1).items.all (fun it =>
      (typeId CrateId.v0_2_1 it.1
        != some (CrateId.v0_3_0, ["Added"]))
      && it.1.all (fun s => s != "Added"))) = true := by
  decide

/-- C10: type identity is not preserved for `Removed` across the
upgrade: A's `Removed` is rooted in Snapshot A and B's `Removed` in
Snapshot B, two distinct identities, unlike `Unchanged` and
`before::Moved`, whose identities in B coincide with Snapshot C's. -/
theorem c10_removed_identity_not_preserved :
    typeId CrateId.v0_2_0 ["Removed"]
      = some (CrateId.v0_2_0, ["Removed"]) ∧
    typeId CrateId.v0_2_1 ["Removed"]
      = some (CrateId.v0_2_1, ["Removed"]) ∧
    typeId CrateId.v0_2_1 ["Removed"]
      ≠ typeId CrateId.v0_2_0 ["Removed"] ∧
    typeId CrateId.v0_2_1 ["Unchanged"]
      = typeId CrateId.v0_3_0 ["Unchanged"] ∧
    typeId CrateId.v0_2_1 ["before", "Moved"]
      = typeId CrateId.v0_3_0 ["after", "Moved"] := by
  decide
